import Mathlib

set_option maxRecDepth 20000
set_option maxHeartbeats 1000000

/-!
Shallow embedding of the template-driven code-generation tool system of the
autocraft repository (file `src/autocraft/src/autocraft/tools/custom_tool.py`).

The filesystem is modelled explicitly as a value (`FS`): a finite map from
file path to text content together with the set of existing directories.
Every tool `_run` method becomes a pure Lean function threading that state.
Python strings are Lean `String`s; Python `None`-able values are `Option`s;
Python truthiness tests on strings/lists are modelled by explicit emptiness
tests, exactly where the source performs them.
-/

/-- Filesystem state: an association list from file path to text content,
plus the list (read: finite set) of directories that exist. -/
structure FS where
  files : List (String × String)
  dirs : List String
deriving DecidableEq

/-- The empty filesystem, used as a starting state for concrete runs. -/
def FS.empty : FS := ⟨[], []⟩

/-- Association-list lookup by string key (models `dict.get` / pathlib file
content lookup). -/
def alookup {β : Type} : List (String × β) → String → Option β
  | [], _ => none
  | (k, v) :: rest, q => if k = q then some v else alookup rest q

/-- Update-or-insert into an association list (models writing a file's text:
`Path.write_text` overwrites an existing entry or creates a new one). -/
def setFile : List (String × String) → String → String → List (String × String)
  | [], p, c => [(p, c)]
  | (k, v) :: rest, p, c => if k = p then (p, c) :: rest else (k, v) :: setFile rest p c

/-- String membership in a list of strings (models Python `in` on dict keys /
set membership for the directory set). -/
def containsStr : List String → String → Bool
  | [], _ => false
  | x :: rest, q => if x = q then true else containsStr rest q

/-- Add a directory name to the directory set if not already present. -/
def addDir (ds : List String) (d : String) : List String :=
  if containsStr ds d then ds else ds ++ [d]

/-- Add a list of directory names to the directory set. -/
def addDirs (ds : List String) (new : List String) : List String :=
  new.foldl addDir ds

/-- Model of Python `s.endswith("/")`, computed structurally on the
character list. -/
def endsWithSlash (s : String) : Bool :=
  match s.data.getLast? with
  | some c => c = '/'
  | none => false

/-- Whitespace test covering the ASCII whitespace Python `str.strip`
removes (all inputs in this repository are ASCII). -/
def isSpaceChar (c : Char) : Bool :=
  c = ' ' || c = '\t' || c = '\n' || c = '\r' || c = '\x0b' || c = '\x0c'

/-- Model of Python `str.strip()`: remove leading and trailing whitespace. -/
def pyStrip (s : String) : String :=
  String.mk (((s.data.dropWhile isSpaceChar).reverse.dropWhile isSpaceChar).reverse)

/-- Drop a single trailing path separator, as pathlib does when normalising a
path segment such as `"docs/"` to `docs`. -/
def dropSlash (s : String) : String :=
  if endsWithSlash s then String.mk s.data.dropLast else s

/-- Split a list of characters at the path separator; accumulator holds the
current component reversed.  Always returns at least one component. -/
def splitPathCore : List Char → List Char → List String
  | [], acc => [String.mk acc.reverse]
  | c :: rest, acc =>
    if c = '/' then String.mk acc.reverse :: splitPathCore rest []
    else splitPathCore rest (c :: acc)

/-- Path components of a string path. -/
def splitPath (s : String) : List String := splitPathCore s.data []

/-- Join a list of strings with a separator (models `str.join`). -/
def joinWith (sep : String) : List String → String
  | [] => ""
  | [x] => x
  | x :: rest => x ++ sep ++ joinWith sep rest

/-- Parent of a path, as `pathlib.Path(p).parent`: all components but the
last, or `"."` when there is at most one component. -/
def parentOf (p : String) : String :=
  let parts := splitPath (dropSlash p)
  if parts.length ≤ 1 then "." else joinWith "/" parts.dropLast

/-- All ancestor prefixes of a path, shortest first (the directories that
`mkdir(parents=True)` brings into existence). -/
def prefixChain (p : String) : List String :=
  let parts := splitPath (dropSlash p)
  (List.range parts.length).map (fun i => joinWith "/" (parts.take (i + 1)))

/-- Model of `Path(d).mkdir(parents=True, exist_ok=True)`: the directory and
every ancestor of it are added to the directory set; files are untouched. -/
def mkdirP (fs : FS) (d : String) : FS :=
  { fs with dirs := addDir (addDirs fs.dirs (prefixChain d)) d }

/-- Model of `_ensure_parent_dirs(path)` (custom_tool.py line 44):
`Path(path).parent.mkdir(parents=True, exist_ok=True)`. -/
def ensureParentDirs (fs : FS) (path : String) : FS :=
  mkdirP fs (parentOf path)

/-- Model of `Path(p).exists()`: true when `p` is a file or a directory. -/
def pathExistsB (fs : FS) (p : String) : Bool :=
  (alookup fs.files p).isSome || containsStr fs.dirs p

/-- Model of `pathlib` `/` joining for the relative paths this repository
uses: trailing separators of each side are normalised away, a `"."` or empty
left side yields the right side, and an empty right side yields the left. -/
def pathJoin (a b : String) : String :=
  let a1 := dropSlash a
  let b1 := dropSlash b
  if b1 = "" then a1
  else if a1 = "." then b1
  else if a1 = "" then b1
  else a1 ++ "/" ++ b1

/-- Model of `_write_file(path, content, overwrite)` (custom_tool.py lines
48-54): parent directories are created first, then if the path exists and
`overwrite` is false the write is skipped with a `[SKIPPED]` status;
otherwise the content is written and a `[WROTE]` status is returned.  The
function is total: a pre-existing file never causes an error. -/
def writeFile (fs : FS) (path content : String) (overwrite : Bool) : String × FS :=
  let fs1 := ensureParentDirs fs path
  if pathExistsB fs1 path && !overwrite then
    ("[SKIPPED] " ++ path ++ " already exists", fs1)
  else
    ("[WROTE] " ++ path ++ " (" ++ toString content.length ++ " bytes)",
     { fs1 with files := setFile fs1.files path content })

/-- Model of `_normalize_package_to_path` (custom_tool.py lines 57-58):
trim surrounding whitespace, then replace each `.` by `/`. -/
def normalizePackageToPath (base_package : String) : String :=
  String.mk ((pyStrip base_package).data.map (fun c => if c = '.' then '/' else c))

/-- Model of `_read_template(template_name)` (custom_tool.py lines 61-66).
The templates directory is modelled as an association list from template
name to raw text.  A present template is read and stripped; an absent one
yields the empty string.  The function is total: it never raises. -/
def readTemplate (store : List (String × String)) (template_name : String) : String :=
  match alookup store template_name with
  | some content => pyStrip content
  | none => ""

/-- Python `str.splitlines` on `\n`-separated text: the accumulator holds the
current line reversed; a trailing newline produces no empty final line. -/
def splitlinesCore : List Char → List Char → List String
  | [], acc => [String.mk acc.reverse]
  | c :: rest, acc =>
    if c = '\n' then
      String.mk acc.reverse :: (if rest.isEmpty then [] else splitlinesCore rest [])
    else splitlinesCore rest (c :: acc)

/-- Model of Python `str.splitlines()` (for `\n` line endings): the empty
string yields no lines. -/
def pySplitlines (s : String) : List String :=
  if s.data.isEmpty then [] else splitlinesCore s.data []

/-- Java import statement line emitted by `JavaCodegenTool._run`. -/
def importLine (imp : String) : String := "import " ++ imp ++ ";"

/-- Javadoc block lines of `JavaCodegenTool._run` (custom_tool.py lines
342-346): emitted only when the javadoc is present and non-empty (Python
truthiness of `if javadoc:`), each javadoc line prefixed by `\x20* `. -/
def javadocBlock (javadoc : Option String) : List String :=
  match javadoc with
  | some jd =>
    if jd = "" then []
    else ["/**"] ++ (pySplitlines jd).map (fun l => " * " ++ l) ++ [" */"]
  | none => []

/-- Body lines of `JavaCodegenTool._run` (custom_tool.py lines 352-354):
emitted only when the body is non-empty, each line indented by four spaces. -/
def bodyLines (body : String) : List String :=
  if body = "" then [] else (pySplitlines body).map (fun l => "    " ++ l)

/-- Lines of the Java class rendered by `JavaCodegenTool._run` (custom_tool.py
lines 336-355): package declaration, blank line, imports (with a trailing
blank line when any exist), optional javadoc block, annotation lines, the
class opening, the indented body lines, and the closing brace.  Python's
truthiness tests `if imports:`, `if javadoc:` and `if body:` are modelled by
the corresponding emptiness tests. -/
def javaClassLines (base_package class_name body : String)
    (imports annots : List String) (javadoc : Option String) : List String :=
  ["package " ++ base_package ++ ";", ""]
  ++ imports.map importLine
  ++ (if imports.isEmpty then [] else [""])
  ++ javadocBlock javadoc
  ++ annots
  ++ ["public class " ++ class_name ++ " \x7b"]
  ++ bodyLines body
  ++ ["\x7d"]

/-- Full text of the rendered Java class: lines joined by newlines with a
final trailing newline (custom_tool.py line 356). -/
def javaClassContent (base_package class_name body : String)
    (imports annots : List String) (javadoc : Option String) : String :=
  joinWith "\n" (javaClassLines base_package class_name body imports annots javadoc) ++ "\n"

/-- Directory that `JavaCodegenTool._run` creates and writes into:
`base_dir / src/<kind>/java / <packagePath>` where the kind segment is
`test` exactly when `src_type == "test"` and `main` otherwise
(custom_tool.py lines 330-332). -/
def javaFullDir (base_dir base_package src_type : String) : String :=
  pathJoin
    (pathJoin base_dir ("src/" ++ (if src_type = "test" then "test" else "main") ++ "/java"))
    (normalizePackageToPath base_package)

/-- Target file path of `JavaCodegenTool._run`: `<fullDir>/<ClassName>.java`
(custom_tool.py line 334). -/
def javaTargetPath (base_dir base_package class_name src_type : String) : String :=
  pathJoin (javaFullDir base_dir base_package src_type) (class_name ++ ".java")

/-- Model of `JavaCodegenTool._run` (custom_tool.py lines 319-357).  Note
that the method itself performs no validation of `src_type`: any value other
than `"test"` selects the `main` subtree, and the file is always written
with overwrite enabled. -/
def javaCodegenRun (fs : FS) (base_package class_name src_type body : String)
    (imports annots : List String) (javadoc : Option String) (base_dir : String) :
    String × FS :=
  let fullDir := javaFullDir base_dir base_package src_type
  let fs1 := mkdirP fs fullDir
  let path := javaTargetPath base_dir base_package class_name src_type
  let content := javaClassContent base_package class_name body imports annots javadoc
  writeFile fs1 path content true

/-- Model of the pydantic validator `JavaCodegenArgs._check_src_type`
(custom_tool.py lines 306-311): values outside `{"main", "test"}` are
rejected with a `ValueError`; valid values are returned unchanged.  This
validator belongs to the `JavaCodegenArgs` model; the tool's `args_schema`
assignment referencing that model is commented out in the source, so
`JavaCodegenTool._run` itself is never guarded by it. -/
def checkSrcType (v : String) : Except String String :=
  if v = "main" ∨ v = "test" then Except.ok v
  else Except.error "src_type must be \x27main\x27 or \x27test\x27"

/-- Default scaffold path list `DEFAULT_SCAFFOLD` (custom_tool.py lines
99-112).  Directories carry a trailing separator. -/
def DEFAULT_SCAFFOLD : List String :=
  [".editorconfig",
   ".gitattributes",
   ".gitignore",
   "README.md",
   "docs/",
   "docs/USAGE.md",
   "docs/ARCHITECTURE.md",
   "pom.xml",
   "src/main/java/",
   "src/test/java/",
   "src/main/resources/",
   "src/test/resources/"]

/-- Model of `list(dict.fromkeys(l))`: left fold that appends each element
not yet present, so duplicates are removed keeping first-seen order. -/
def dedupFromKeys (l : List String) : List String :=
  l.foldl (fun acc x => if containsStr acc x then acc else acc ++ [x]) []

/-- Specification-side definition of first-seen deduplication, written from
the spec's words ("deduplicates ... while preserving first-seen order"):
keep the head, drop its later duplicates, recurse. -/
def keepFirstDedup : List String → List String
  | [] => []
  | x :: xs => x :: keepFirstDedup (xs.filter (fun y => y != x))
termination_by l => l.length
decreasing_by
  simp only [List.length_cons]
  exact Nat.lt_succ_of_le (List.length_filter_le _ _)

/-- The list of paths `RepoScaffolderTool._run` iterates over (custom_tool.py
lines 125-127): when defaults are included, the deduplicated concatenation of
`DEFAULT_SCAFFOLD` and the extra paths; otherwise the extra paths verbatim. -/
def repoScaffolderPaths (include_defaults : Bool) (extra_paths : List String) : List String :=
  if include_defaults then dedupFromKeys (DEFAULT_SCAFFOLD ++ extra_paths)
  else extra_paths

/-- One iteration of the scaffolding loop (custom_tool.py lines 129-140): a
path with a trailing separator is created as a directory and reported
`[DIR]`; otherwise parent directories are ensured and the file is created
empty (`[FILE]`) when absent or reported `[SKIP]` when it already exists. -/
def scaffoldStep (base : String) (fs : FS) (p : String) : String × FS :=
  let target := pathJoin base p
  if endsWithSlash p then
    ("[DIR] " ++ target, mkdirP fs target)
  else
    let fs1 := ensureParentDirs fs target
    if pathExistsB fs1 target then
      ("[SKIP] " ++ target ++ " exists", fs1)
    else
      ("[FILE] " ++ target, { fs1 with files := setFile fs1.files target "" })

/-- The scaffolding loop over a list of paths, collecting the status line of
each iteration in order and threading the filesystem. -/
def scaffoldFold (base : String) (fs : FS) : List String → List String × FS
  | [] => ([], fs)
  | p :: rest =>
    ((scaffoldStep base fs p).1 :: (scaffoldFold base (scaffoldStep base fs p).2 rest).1,
     (scaffoldFold base (scaffoldStep base fs p).2 rest).2)

/-- Status lines and final state of `RepoScaffolderTool._run` (custom_tool.py
lines 120-141): the base directory is created first, then each path of the
combined list is processed in order. -/
def repoScaffolderLines (fs : FS) (base_dir : String) (include_defaults : Bool)
    (extra_paths : List String) : List String × FS :=
  scaffoldFold base_dir (mkdirP fs base_dir) (repoScaffolderPaths include_defaults extra_paths)

/-- Model of `RepoScaffolderTool._run`: the status lines joined by newlines,
with the resulting filesystem. -/
def repoScaffolderRun (fs : FS) (base_dir : String) (include_defaults : Bool)
    (extra_paths : List String) : String × FS :=
  (joinWith "\n" (repoScaffolderLines fs base_dir include_defaults extra_paths).1,
   (repoScaffolderLines fs base_dir include_defaults extra_paths).2)

/-- Enumeration of the tool classes held by `TOOLS_REGISTRY`; instantiating a
class (`cls()`) is modelled by the corresponding value. -/
inductive ToolImpl where
  | fileWriterTool
  | repoScaffolderTool
  | pomXmlTool
  | javaCodegenTool
  | readmeWriterTool
  | h2RunnerTool
  | jdbcExecutorTool
  | mongoEmbedTool
  | testcontainersTool
  | kafkaMockTool
  | openAPISchemaTool
  | fakerTool
  | kafkaMessagingScaffoldTool
  | emsMessagingScaffoldTool
deriving DecidableEq

/-- Model of `TOOLS_REGISTRY` (custom_tool.py lines 1038-1053): the mapping
from canonical tool name to tool class, in source declaration order. -/
def TOOLS_REGISTRY : List (String × ToolImpl) :=
  [("FileWriterTool", ToolImpl.fileWriterTool),
   ("RepoScaffolderTool", ToolImpl.repoScaffolderTool),
   ("PomXmlTool", ToolImpl.pomXmlTool),
   ("JavaCodegenTool", ToolImpl.javaCodegenTool),
   ("ReadmeWriterTool", ToolImpl.readmeWriterTool),
   ("H2RunnerTool", ToolImpl.h2RunnerTool),
   ("JDBCExecutorTool", ToolImpl.jdbcExecutorTool),
   ("MongoEmbedTool", ToolImpl.mongoEmbedTool),
   ("TestcontainersTool", ToolImpl.testcontainersTool),
   ("KafkaMockTool", ToolImpl.kafkaMockTool),
   ("OpenAPISchemaTool", ToolImpl.openAPISchemaTool),
   ("FakerTool", ToolImpl.fakerTool),
   ("KafkaMessagingScaffoldTool", ToolImpl.kafkaMessagingScaffoldTool),
   ("EmsMessagingScaffoldTool", ToolImpl.emsMessagingScaffoldTool)]

/-- The registered tool names, in registry order (Python `list(TOOLS_REGISTRY)`). -/
def registryKeys : List String := TOOLS_REGISTRY.map Prod.fst

/-- Python `repr` of a list of strings, as interpolated into the unknown-tool
error message. -/
def pyListRepr (names : List String) : String :=
  "[" ++ joinWith ", " (names.map (fun n => "\x27" ++ n ++ "\x27")) ++ "]"

/-- The `KeyError` message raised by `get_tool_by_name` for an unknown name
(custom_tool.py line 1060). -/
def unknownToolMessage (name : String) : String :=
  "Unknown tool \x27" ++ name ++ "\x27. Known tools: " ++ pyListRepr registryKeys

/-- Model of `get_tool_by_name` (custom_tool.py lines 1056-1061): registry
lookup; an absent name raises a `KeyError` listing the known names, a present
name yields a fresh instance of the mapped class.  (The source's `if not cls`
test is truthiness on a class object, which is never falsy, so the only error
path is an absent key.) -/
def get_tool_by_name (name : String) : Except String ToolImpl :=
  match alookup TOOLS_REGISTRY name with
  | some cls => Except.ok cls
  | none => Except.error (unknownToolMessage name)

/-- Dependency descriptor consumed by `PomXmlTool._run` (the dict entries of
its `dependencies` argument): `groupId` and `artifactId` are required keys,
the rest are optional. -/
structure PomDep where
  groupId : String
  artifactId : String
  version : Option String
  scope : Option String
  optional : Option Bool
deriving DecidableEq

/-- Plugin descriptor consumed by `PomXmlTool._run` (the dict entries of its
`plugins` argument). -/
structure PomPlugin where
  groupId : String
  artifactId : String
  version : Option String
  configuration_xml : Option String
  executions_xml : Option String
deriving DecidableEq

/-- Python `str(b).lower()` for a boolean. -/
def pyBoolStr (b : Bool) : String := if b then "true" else "false"

/-- Python truthiness of an optional string: `None` and the empty string are
falsy.  Used for the `if dep.get(...)` / `if plg.get(...)` tests. -/
def optTruthy : Option String → Bool
  | none => false
  | some s => !(s = "")

/-- XML fragment appended to `deps_xml` for one dependency (custom_tool.py
lines 190-197), reproducing the source's exact whitespace. -/
def depXml (dep : PomDep) : String :=
  let version_tag :=
    if optTruthy dep.version then
      "\n      <version>" ++ dep.version.getD "" ++ "</version>"
    else ""
  let scope :=
    if optTruthy dep.scope then
      "\n      <scope>" ++ dep.scope.getD "" ++ "</scope>"
    else ""
  let optional :=
    match dep.optional with
    | some b => "\n      <optional>" ++ pyBoolStr b ++ "</optional>"
    | none => ""
  "\n        <dependency>\n        <groupId>" ++ dep.groupId
    ++ "</groupId>\n        <artifactId>" ++ dep.artifactId ++ "</artifactId>"
    ++ version_tag ++ scope ++ optional ++ "\n        </dependency>"

/-- XML fragment appended to `plugins_xml` for one plugin (custom_tool.py
lines 201-208). -/
def plgXml (plg : PomPlugin) : String :=
  let ver :=
    if optTruthy plg.version then
      "\n        <version>" ++ plg.version.getD "" ++ "</version>"
    else ""
  let config :=
    if optTruthy plg.configuration_xml then
      "\n        " ++ plg.configuration_xml.getD ""
    else ""
  let execs :=
    if optTruthy plg.executions_xml then
      "\n        " ++ plg.executions_xml.getD ""
    else ""
  "\n        <plugin>\n            <groupId>" ++ plg.groupId
    ++ "</groupId>\n            <artifactId>" ++ plg.artifactId ++ "</artifactId>"
    ++ ver ++ config ++ execs ++ "\n        </plugin>"

/-- The full pom document built by `PomXmlTool._run` (custom_tool.py lines
210-286), after the final `.strip() + "\n"`: baseline test dependencies
(junit-jupiter, assertj-core, mockito-core) and baseline plugins (surefire,
jacoco) are part of the literal text, with caller fragments spliced in only
when non-blank. -/
def pomDoc (groupId artifactId version java_version packaging deps_xml plugins_xml : String) :
    String :=
  joinWith "\n"
    ["<project xmlns=\"http://maven.apache.org/POM/4.0.0\"",
     "            xmlns:xsi=\"http://www.w3.org/2001/XMLSchema-instance\"",
     "            xsi:schemaLocation=\"http://maven.apache.org/POM/4.0.0 https://maven.apache.org/xsd/maven-4.0.0.xsd\">",
     "            <modelVersion>4.0.0</modelVersion>",
     "",
     "            <groupId>" ++ groupId ++ "</groupId>",
     "            <artifactId>" ++ artifactId ++ "</artifactId>",
     "            <version>" ++ version ++ "</version>",
     "            <packaging>" ++ packaging ++ "</packaging>",
     "",
     "            <properties>",
     "                <maven.compiler.source>" ++ java_version ++ "</maven.compiler.source>",
     "                <maven.compiler.target>" ++ java_version ++ "</maven.compiler.target>",
     "                <project.build.sourceEncoding>UTF-8</project.build.sourceEncoding>",
     "                <junit.jupiter.version>5.10.2</junit.jupiter.version>",
     "                <assertj.version>3.25.3</assertj.version>",
     "                <mockito.version>5.12.0</mockito.version>",
     "            </properties>",
     "",
     "            <dependencies>" ++ (if pyStrip deps_xml = "" then "" else deps_xml),
     "                <!-- Baseline testing stack -->",
     "                <dependency>",
     "                <groupId>org.junit.jupiter</groupId>",
     "                <artifactId>junit-jupiter</artifactId>",
     "                <version>$\x7bjunit.jupiter.version\x7d</version>",
     "                <scope>test</scope>",
     "                </dependency>",
     "                <dependency>",
     "                <groupId>org.assertj</groupId>",
     "                <artifactId>assertj-core</artifactId>",
     "                <version>$\x7bassertj.version\x7d</version>",
     "                <scope>test</scope>",
     "                </dependency>",
     "                <dependency>",
     "                <groupId>org.mockito</groupId>",
     "                <artifactId>mockito-core</artifactId>",
     "                <version>$\x7bmockito.version\x7d</version>",
     "                <scope>test</scope>",
     "                </dependency>",
     "            </dependencies>",
     "",
     "            <build>",
     "                <plugins>" ++ (if pyStrip plugins_xml = "" then "" else plugins_xml),
     "                <plugin>",
     "                    <groupId>org.apache.maven.plugins</groupId>",
     "                    <artifactId>maven-surefire-plugin</artifactId>",
     "                    <version>3.2.5</version>",
     "                    <configuration>",
     "                    <useModulePath>false</useModulePath>",
     "                    <includes>",
     "                        <include>**/*Test.java</include>",
     "                    </includes>",
     "                    </configuration>",
     "                </plugin>",
     "                <plugin>",
     "                    <groupId>org.jacoco</groupId>",
     "                    <artifactId>jacoco-maven-plugin</artifactId>",
     "                    <version>0.8.11</version>",
     "                    <executions>",
     "                    <execution>",
     "                        <goals>",
     "                        <goal>prepare-agent</goal>",
     "                        </goals>",
     "                    </execution>",
     "                    <execution>",
     "                        <id>report</id>",
     "                        <phase>test</phase>",
     "                        <goals>",
     "                        <goal>report</goal>",
     "                        </goals>",
     "                    </execution>",
     "                    </executions>",
     "                </plugin>",
     "                </plugins>",
     "            </build>",
     "            </project>"] ++ "\n"

/-- One iteration of the dependency loop of `PomXmlTool._run` (custom_tool.py
lines 189-286).  Because of the source's indentation, the plugin-fragment
loop and the whole document assembly are nested inside the dependency loop:
each iteration extends `deps_xml`, rebuilds `plugins_xml` from scratch, and
reassigns `xml`.  The pair carries (`deps_xml`, latest value of `xml` if it
was ever assigned). -/
def pomDepsStep (plugins : List PomPlugin)
    (groupId artifactId version java_version packaging : String)
    (acc : String × Option String) (dep : PomDep) : String × Option String :=
  let deps_xml := acc.1 ++ depXml dep
  let plugins_xml := plugins.foldl (fun s plg => s ++ plgXml plg) ""
  let xml := pomDoc groupId artifactId version java_version packaging deps_xml plugins_xml
  (deps_xml, some xml)

/-- Model of `PomXmlTool._run` (custom_tool.py lines 177-289).  The local
`xml` is only assigned inside the dependency loop; when the loop body never
executes (no dependencies), the final reference to `xml` raises Python's
`UnboundLocalError`, modelled as the error branch.  Otherwise the last
assigned document is written to `<base_dir>/pom.xml` with overwrite. -/
def pomXmlRun (fs : FS) (base_dir groupId artifactId version java_version : String)
    (dependencies : List PomDep) (plugins : List PomPlugin) (packaging : String) :
    Except String (String × FS) :=
  let st := dependencies.foldl
    (pomDepsStep plugins groupId artifactId version java_version packaging) ("", none)
  match st.2 with
  | none =>
    Except.error "UnboundLocalError: local variable \x27xml\x27 referenced before assignment"
  | some xml => Except.ok (writeFile fs (pathJoin base_dir "pom.xml") xml true)

/-- Character count of a character in a string. -/
def countChar (c : Char) (s : String) : Nat := s.data.count c

/-- Opening brace character. -/
def obrace : Char := Char.ofNat 123

/-- Closing brace character. -/
def cbrace : Char := Char.ofNat 125

/-- A string free of brace characters. -/
def braceFree (s : String) : Prop := obrace ∉ s.data ∧ cbrace ∉ s.data

instance (s : String) : Decidable (braceFree s) := by
  unfold braceFree; infer_instance


/-! Helper lemmas about the filesystem model. -/

theorem containsStr_iff (l : List String) (q : String) :
    containsStr l q = true ↔ q ∈ l := by
  induction l with
  | nil => simp [containsStr]
  | cons x rest ih =>
    by_cases h : x = q
    · subst h; simp [containsStr]
    · simp [containsStr, h, ih, Ne.symm h]

theorem containsStr_append (a b : List String) (q : String) :
    containsStr (a ++ b) q = (containsStr a q || containsStr b q) := by
  induction a with
  | nil => simp [containsStr]
  | cons x rest ih =>
    by_cases h : x = q <;> simp [containsStr, h, ih]

theorem containsStr_addDir_mono (ds : List String) (d q : String)
    (h : containsStr ds q = true) : containsStr (addDir ds d) q = true := by
  unfold addDir
  split
  · exact h
  · rw [containsStr_append, h]; rfl

theorem containsStr_addDir_self (ds : List String) (d : String) :
    containsStr (addDir ds d) d = true := by
  unfold addDir
  split
  · assumption
  · rw [containsStr_append]
    simp [containsStr]

theorem containsStr_addDirs_mono (new : List String) (ds : List String) (q : String)
    (h : containsStr ds q = true) : containsStr (addDirs ds new) q = true := by
  induction new generalizing ds with
  | nil => exact h
  | cons x rest ih =>
    unfold addDirs at *
    simpa using ih (addDir ds x) (containsStr_addDir_mono ds x q h)

theorem containsStr_addDirs_of_mem (new : List String) (ds : List String) (d : String)
    (h : d ∈ new) : containsStr (addDirs ds new) d = true := by
  induction new generalizing ds with
  | nil => cases h
  | cons x rest ih =>
    unfold addDirs at *
    rcases List.mem_cons.mp h with h1 | h1
    · subst h1
      simpa using containsStr_addDirs_mono rest (addDir ds d) d (containsStr_addDir_self ds d)
    · simpa using ih (addDir ds x) h1

theorem alookup_setFile (files : List (String × String)) (p c q : String) :
    alookup (setFile files p c) q = if q = p then some c else alookup files q := by
  induction files with
  | nil =>
    by_cases h : q = p
    · subst h; simp [setFile, alookup]
    · simp [setFile, alookup, h, Ne.symm h]
  | cons kv rest ih =>
    obtain ⟨k, v⟩ := kv
    by_cases hkp : k = p
    · subst hkp
      by_cases hqk : q = k
      · subst hqk; simp [setFile, alookup]
      · simp [setFile, alookup, hqk, Ne.symm hqk]
    · by_cases hkq : k = q
      · subst hkq
        simp [setFile, alookup, hkp]
      · simp [setFile, alookup, hkp, hkq, ih]

theorem mkdirP_files (fs : FS) (d : String) : (mkdirP fs d).files = fs.files := rfl

theorem ensureParentDirs_files (fs : FS) (p : String) :
    (ensureParentDirs fs p).files = fs.files := rfl

theorem pathExistsB_mkdirP_mono (fs : FS) (d q : String)
    (h : pathExistsB fs q = true) : pathExistsB (mkdirP fs d) q = true := by
  unfold pathExistsB at *
  rcases Bool.or_eq_true_iff.mp h with h1 | h1
  · rw [mkdirP_files, h1]; rfl
  · have : containsStr (mkdirP fs d).dirs q = true := by
      unfold mkdirP
      exact containsStr_addDir_mono _ _ _ (containsStr_addDirs_mono _ _ _ h1)
    rw [this]
    simp

theorem mkdirP_contains_self (fs : FS) (d : String) :
    containsStr (mkdirP fs d).dirs d = true := by
  unfold mkdirP
  exact containsStr_addDir_self _ _

theorem mkdirP_contains_chain (fs : FS) (d q : String) (h : q ∈ prefixChain d) :
    containsStr (mkdirP fs d).dirs q = true := by
  unfold mkdirP
  exact containsStr_addDir_mono _ _ _ (containsStr_addDirs_of_mem _ _ _ h)

theorem pathExistsB_setFile_mono (fs : FS) (p c q : String)
    (h : pathExistsB fs q = true) :
    pathExistsB { fs with files := setFile fs.files p c } q = true := by
  unfold pathExistsB at *
  rcases Bool.or_eq_true_iff.mp h with h1 | h1
  · by_cases hq : q = p
    · subst hq; simp [alookup_setFile]
    · simp [alookup_setFile, hq, h1]
  · simp [h1]

/-- Closed form of `_write_file` on an existing path with overwrite
disabled: the skip branch is taken and only parent-directory creation
happens. -/
theorem writeFile_skip (fs : FS) (path content : String)
    (h : pathExistsB (ensureParentDirs fs path) path = true) :
    writeFile fs path content false =
      ("[SKIPPED] " ++ path ++ " already exists", ensureParentDirs fs path) := by
  simp only [writeFile]
  rw [h]
  rfl

/-! Claim C7: `_write_file` with `overwrite=false` on an existing path. -/

/-- C7: for every path that already exists as a file, `_write_file` with
`overwrite=false` returns the `[SKIPPED]` status, leaves every file's
content (in particular the pre-existing file's) unchanged, and — being a
total function in this model — never raises for the pre-existing file. -/
theorem writeFile_no_overwrite_skips (fs : FS) (path content c : String)
    (h : alookup fs.files path = some c) :
    (writeFile fs path content false).1 = "[SKIPPED] " ++ path ++ " already exists" ∧
    (writeFile fs path content false).2.files = fs.files ∧
    alookup (writeFile fs path content false).2.files path = some c := by
  have hfiles : (ensureParentDirs fs path).files = fs.files := rfl
  have hex : pathExistsB (ensureParentDirs fs path) path = true := by
    unfold pathExistsB
    rw [hfiles, h]
    rfl
  rw [writeFile_skip fs path content hex]
  exact ⟨rfl, hfiles, by rw [hfiles, h]⟩

/-- Witness for C7 at a concrete pre-existing file. -/
theorem writeFile_no_overwrite_skips_witness :
    (writeFile ⟨[("a/b.txt", "old")], []⟩ "a/b.txt" "new" false).1 =
      "[SKIPPED] " ++ "a/b.txt" ++ " already exists" ∧
    (writeFile ⟨[("a/b.txt", "old")], []⟩ "a/b.txt" "new" false).2.files =
      (⟨[("a/b.txt", "old")], []⟩ : FS).files ∧
    alookup (writeFile ⟨[("a/b.txt", "old")], []⟩ "a/b.txt" "new" false).2.files "a/b.txt" =
      some "old" :=
  writeFile_no_overwrite_skips ⟨[("a/b.txt", "old")], []⟩ "a/b.txt" "new" "old" rfl

/-! Claim C8: `_read_template` on a missing template name. -/

/-- C8: for every template name absent from the templates directory,
`_read_template` returns the empty string; as a total function it never
raises. -/
theorem readTemplate_missing (store : List (String × String)) (name : String)
    (h : alookup store name = none) : readTemplate store name = "" := by
  unfold readTemplate
  rw [h]

/-- Witness for C8 at a concrete store missing the requested name. -/
theorem readTemplate_missing_witness :
    readTemplate [("H2_TEST_BODY_INMEM.j2", "body")] "NO_SUCH_TEMPLATE.j2" = "" :=
  readTemplate_missing [("H2_TEST_BODY_INMEM.j2", "body")] "NO_SUCH_TEMPLATE.j2" rfl

/-! Claim C10: `_write_file` creates parent directories before the
existence check, so they are created even when the write is skipped. -/

/-- C10: for every existing path, `_write_file` with `overwrite=false`
skips the write, yet every ancestor directory of the path's parent is
present in the directory set afterwards, because `_ensure_parent_dirs`
runs before the existence check; file contents are untouched. -/
theorem writeFile_creates_parents_when_skipped (fs : FS) (path content : String)
    (h : pathExistsB fs path = true) :
    (writeFile fs path content false).1 = "[SKIPPED] " ++ path ++ " already exists" ∧
    (∀ d ∈ prefixChain (parentOf path),
      containsStr (writeFile fs path content false).2.dirs d = true) ∧
    (writeFile fs path content false).2.files = fs.files := by
  have hex : pathExistsB (ensureParentDirs fs path) path = true :=
    pathExistsB_mkdirP_mono fs (parentOf path) path h
  rw [writeFile_skip fs path content hex]
  refine ⟨rfl, ?_, rfl⟩
  intro d hd
  exact mkdirP_contains_chain fs (parentOf path) d hd

/-- Witness for C10: a file deep in a missing directory tree; the skip still
creates `x`, `x/y` and `x/y/z`. -/
theorem writeFile_creates_parents_when_skipped_witness :
    (writeFile ⟨[("x/y/z/f.txt", "keep")], []⟩ "x/y/z/f.txt" "c" false).1 =
      "[SKIPPED] " ++ "x/y/z/f.txt" ++ " already exists" ∧
    (∀ d ∈ prefixChain (parentOf "x/y/z/f.txt"),
      containsStr (writeFile ⟨[("x/y/z/f.txt", "keep")], []⟩ "x/y/z/f.txt" "c" false).2.dirs d
        = true) ∧
    (writeFile ⟨[("x/y/z/f.txt", "keep")], []⟩ "x/y/z/f.txt" "c" false).2.files =
      (⟨[("x/y/z/f.txt", "keep")], []⟩ : FS).files :=
  writeFile_creates_parents_when_skipped ⟨[("x/y/z/f.txt", "keep")], []⟩ "x/y/z/f.txt" "c"
    (by decide)

/-! Claim C6: registry lookup. -/

/-- C6: the registered names are exactly the fourteen names of the source's
`TOOLS_REGISTRY`; `get_tool_by_name` on any unregistered name raises the
`KeyError` whose message enumerates exactly those names, and on any
registered name returns an instance of the mapped class without error. -/
theorem get_tool_by_name_spec :
    registryKeys =
      ["FileWriterTool", "RepoScaffolderTool", "PomXmlTool", "JavaCodegenTool",
       "ReadmeWriterTool", "H2RunnerTool", "JDBCExecutorTool", "MongoEmbedTool",
       "TestcontainersTool", "KafkaMockTool", "OpenAPISchemaTool", "FakerTool",
       "KafkaMessagingScaffoldTool", "EmsMessagingScaffoldTool"] ∧
    (∀ name : String,
      (alookup TOOLS_REGISTRY name = none →
        get_tool_by_name name = Except.error
          ("Unknown tool \x27" ++ name ++ "\x27. Known tools: " ++ pyListRepr registryKeys)) ∧
      (∀ t, alookup TOOLS_REGISTRY name = some t →
        get_tool_by_name name = Except.ok t)) := by
  refine ⟨rfl, fun name => ⟨fun h => ?_, fun t h => ?_⟩⟩
  · unfold get_tool_by_name
    rw [h]
    rfl
  · unfold get_tool_by_name
    rw [h]

/-- Witness for C6 at a concrete unregistered name and a concrete registered
name. -/
theorem get_tool_by_name_spec_witness :
    get_tool_by_name "NoSuchTool" = Except.error
      ("Unknown tool \x27" ++ "NoSuchTool" ++ "\x27. Known tools: " ++ pyListRepr registryKeys) ∧
    get_tool_by_name "PomXmlTool" = Except.ok ToolImpl.pomXmlTool :=
  ⟨(get_tool_by_name_spec.2 "NoSuchTool").1 rfl,
   (get_tool_by_name_spec.2 "PomXmlTool").2 ToolImpl.pomXmlTool rfl⟩

/-! Claim C5: the concrete end-to-end Java codegen scenario. -/

/-- C5: `JavaCodegenTool._run` with base package `com.example.qa`, class
`Smoke`, source kind `test`, empty body, no imports, no annotation lines and
no javadoc writes `src/test/java/com/example/qa/Smoke.java` whose content is
exactly `package com.example.qa;\n\npublic class Smoke {\n}\n`. -/
theorem java_codegen_smoke_end_to_end :
    (javaCodegenRun FS.empty "com.example.qa" "Smoke" "test" "" [] [] none ".").1 =
      "[WROTE] src/test/java/com/example/qa/Smoke.java (48 bytes)" ∧
    alookup (javaCodegenRun FS.empty "com.example.qa" "Smoke" "test" "" [] [] none ".").2.files
        "src/test/java/com/example/qa/Smoke.java" =
      some "package com.example.qa;\n\npublic class Smoke \x7b\n\x7d\n" := by
  constructor <;> rfl

/-! Claim C2: source-kind validation of the Java class emitter. -/

/-- C2 counterexample: invoking `JavaCodegenTool._run` with the invalid
source kind `production` does not fail — it returns a `[WROTE]` status and
writes the file under the `main` subtree, contradicting the claim that every
such invocation fails with a validation error and writes no file. -/
theorem java_codegen_invalid_kind_writes :
    (javaCodegenRun FS.empty "com.example" "Foo" "production" "" [] [] none ".").1 =
      "[WROTE] src/main/java/com/example/Foo.java (43 bytes)" ∧
    alookup (javaCodegenRun FS.empty "com.example" "Foo" "production" "" [] [] none ".").2.files
        "src/main/java/com/example/Foo.java" =
      some "package com.example;\n\npublic class Foo \x7b\n\x7d\n" := by
  constructor <;> rfl

/-- C2 amended: the validation error for a source kind outside
`{main, test}` is raised only by the `JavaCodegenArgs` pydantic validator
(`_check_src_type`), which the tool does not install (its `args_schema` is
commented out); `JavaCodegenTool._run` itself treats every source kind other
than `test` exactly like `main` and writes the file. -/
theorem java_codegen_src_type_validation (v : String)
    (h1 : v ≠ "main") (h2 : v ≠ "test") :
    checkSrcType v = Except.error "src_type must be \x27main\x27 or \x27test\x27" ∧
    ∀ (fs : FS) (base_package class_name body : String) (imports annots : List String)
      (javadoc : Option String) (base_dir : String),
      javaCodegenRun fs base_package class_name v body imports annots javadoc base_dir =
        javaCodegenRun fs base_package class_name "main" body imports annots javadoc base_dir := by
  constructor
  · unfold checkSrcType
    rw [if_neg]
    rintro (h | h)
    · exact h1 h
    · exact h2 h
  · intro fs pkg cls body imps ans jd base
    unfold javaCodegenRun javaTargetPath javaFullDir
    rw [if_neg h2, if_neg (by decide : ¬ ("main" : String) = "test")]

/-- Witness for C2's amended statement at the concrete invalid kind
`production`. -/
theorem java_codegen_src_type_validation_witness :
    checkSrcType "production" = Except.error "src_type must be \x27main\x27 or \x27test\x27" ∧
    javaCodegenRun FS.empty "com.example" "Bar" "production" "" [] [] none "." =
      javaCodegenRun FS.empty "com.example" "Bar" "main" "" [] [] none "." :=
  ⟨(java_codegen_src_type_validation "production" (by decide) (by decide)).1,
   (java_codegen_src_type_validation "production" (by decide) (by decide)).2
     FS.empty "com.example" "Bar" "" [] [] none "."⟩

/-! Claim C1: the build-descriptor emitter with no caller-supplied
dependencies and no caller-supplied plugins. -/

/-- C1: evaluating `PomXmlTool._run` at its own default arguments (empty
dependency and plugin lists) does not produce a document at all: the
document assembly is nested inside the dependency loop, so with zero
dependencies the local `xml` is never assigned and the final write raises
`UnboundLocalError` instead of returning a wrote status. -/
theorem pom_xml_no_deps_unbound_local :
    pomXmlRun FS.empty "." "com.example" "qa-testkit" "0.1.0" "17" [] [] "jar" =
      Except.error "UnboundLocalError: local variable \x27xml\x27 referenced before assignment" :=
  rfl

/-! Claim C9: the path list processed by the repository scaffolder. -/

/-- C9 counterexample: with the include-defaults flag false and extra paths
`["a", "a"]`, the processed list is `["a", "a"]` — the duplicate is kept and
the defaults are absent — which differs from the deduplicated combined
default+extra list the claim requires for both flag values. -/
theorem repo_scaffolder_paths_counterexample :
    repoScaffolderPaths false ["a", "a"] = ["a", "a"] ∧
    repoScaffolderPaths false ["a", "a"] ≠ dedupFromKeys (DEFAULT_SCAFFOLD ++ ["a", "a"]) := by
  exact ⟨rfl, by decide⟩

theorem dedupFromKeys_go (l : List String) : ∀ acc : List String,
    l.foldl (fun acc x => if containsStr acc x then acc else acc ++ [x]) acc =
      acc ++ keepFirstDedup (l.filter (fun x => !(containsStr acc x))) := by
  induction l with
  | nil => intro acc; simp [keepFirstDedup]
  | cons x xs ih =>
    intro acc
    by_cases h : containsStr acc x = true
    · rw [List.foldl_cons, if_pos h, ih acc, List.filter_cons_of_neg (by simp [h])]
    · have hfalse : containsStr acc x = false := by
        cases hx : containsStr acc x
        · rfl
        · exact absurd hx h
      rw [List.foldl_cons, if_neg h, ih (acc ++ [x]),
        List.filter_cons_of_pos (by simp [hfalse])]
      rw [show keepFirstDedup (x :: xs.filter (fun y => !containsStr acc y)) =
            x :: keepFirstDedup ((xs.filter (fun y => !containsStr acc y)).filter
              (fun y => y != x)) from by rw [keepFirstDedup]]
      rw [List.filter_filter]
      have hpt : xs.filter (fun y => !containsStr (acc ++ [x]) y)
          = xs.filter (fun a => a != x && !containsStr acc a) := by
        apply List.filter_congr
        intro y _
        by_cases hyx : y = x
        · subst hyx
          simp [containsStr_append, containsStr, hfalse]
        · have hxy : ¬ x = y := fun hh => hyx hh.symm
          simp [containsStr_append, containsStr, hxy, hyx, Bool.and_comm]
      rw [hpt, List.append_assoc, List.singleton_append]

/-- Deduplication via the `dict.fromkeys` fold agrees with the recursive
first-seen-order deduplication written from the spec's words. -/
theorem dedupFromKeys_eq_keepFirst (l : List String) :
    dedupFromKeys l = keepFirstDedup l := by
  unfold dedupFromKeys
  rw [dedupFromKeys_go l []]
  simp [containsStr]

/-- C9 amended: the deduplicated combined default+extra list (first-seen
order) is processed only when the include-defaults flag is true; when the
flag is false, the processed list is the extra list verbatim — no defaults
are added and no deduplication is performed. -/
theorem repo_scaffolder_paths_spec (extra : List String) :
    repoScaffolderPaths true extra = keepFirstDedup (DEFAULT_SCAFFOLD ++ extra) ∧
    repoScaffolderPaths false extra = extra :=
  ⟨dedupFromKeys_eq_keepFirst _, rfl⟩

/-! Counting lemmas for claim C4. -/

theorem countChar_append (c : Char) (a b : String) :
    countChar c (a ++ b) = countChar c a + countChar c b := by
  unfold countChar
  rw [String.data_append, List.count_append]

theorem countChar_eq_zero (c : Char) (s : String) (h : c ∉ s.data) :
    countChar c s = 0 := by
  unfold countChar
  exact List.count_eq_zero.mpr h

theorem countChar_joinWith_nl (c : Char) (hne : c ≠ '\n') (ls : List String) :
    countChar c (joinWith "\n" ls) = (ls.map (countChar c)).sum := by
  induction ls with
  | nil => simp [joinWith, countChar]
  | cons x rest ih =>
    cases rest with
    | nil => simp [joinWith]
    | cons y t =>
      have hd : ("\n" : String).data = ['\n'] := rfl
      have h1 : countChar c "\n" = 0 := countChar_eq_zero c "\n" (by simp [hd, hne])
      calc countChar c (joinWith "\n" (x :: y :: t))
          = countChar c (x ++ "\n" ++ joinWith "\n" (y :: t)) := rfl
        _ = countChar c x + countChar c "\n" + countChar c (joinWith "\n" (y :: t)) := by
            rw [countChar_append, countChar_append]
        _ = ((x :: y :: t).map (countChar c)).sum := by
            rw [h1, ih]
            simp

theorem splitlinesCore_not_mem (c : Char) :
    ∀ (l acc : List Char), c ∉ l → c ∉ acc → ∀ s ∈ splitlinesCore l acc, c ∉ s.data := by
  intro l
  induction l with
  | nil =>
    intro acc _ hacc s hs
    simp only [splitlinesCore, List.mem_singleton] at hs
    subst hs
    simpa using fun h => hacc (List.mem_reverse.mp h)
  | cons c0 rest ih =>
    intro acc hl hacc s hs
    have hc0 : c ≠ c0 := fun h => hl (h ▸ List.mem_cons_self c0 rest)
    have hrest : c ∉ rest := fun h => hl (List.mem_cons_of_mem _ h)
    by_cases h : c0 = '\n'
    · subst h
      have heq : splitlinesCore ('\n' :: rest) acc =
          String.mk acc.reverse :: (if rest.isEmpty then [] else splitlinesCore rest []) := by
        simp [splitlinesCore]
      rw [heq] at hs
      rcases List.mem_cons.mp hs with hs1 | hs1
      · subst hs1
        simpa using fun hmem => hacc (List.mem_reverse.mp hmem)
      · by_cases hre : rest.isEmpty
        · rw [if_pos hre] at hs1
          cases hs1
        · rw [if_neg hre] at hs1
          exact ih [] hrest (by simp) s hs1
    · have heq : splitlinesCore (c0 :: rest) acc = splitlinesCore rest (c0 :: acc) := by
        simp [splitlinesCore, h]
      rw [heq] at hs
      refine ih (c0 :: acc) hrest ?_ s hs
      intro hmem
      rcases List.mem_cons.mp hmem with h1 | h1
      · exact hc0 h1
      · exact hacc h1

theorem pySplitlines_not_mem (c : Char) (s : String) (h : c ∉ s.data) :
    ∀ ln ∈ pySplitlines s, c ∉ ln.data := by
  intro ln hln
  unfold pySplitlines at hln
  split at hln
  · cases hln
  · exact splitlinesCore_not_mem c s.data [] h (by simp) ln hln

/-- Master count: for any character other than the newline that occurs in
none of the caller-supplied text pieces (and none of the fixed literal
pieces, witnessed by the combined literal), the character count of the
rendered class text reduces to its count in the class-opening line plus its
count in the closing-brace line. -/
theorem countChar_javaClassContent (c : Char) (hne : c ≠ '\n')
    (pkg cls body : String) (imports annots : List String) (javadoc : Option String)
    (hp : c ∉ pkg.data) (hb : c ∉ body.data)
    (hi : ∀ i ∈ imports, c ∉ i.data) (ha : ∀ a ∈ annots, c ∉ a.data)
    (hj : ∀ j, javadoc = some j → c ∉ j.data)
    (hlit : c ∉ ("package ;import /** */    " : String).data) :
    countChar c (javaClassContent pkg cls body imports annots javadoc) =
      countChar c ("public class " ++ cls ++ " \x7b") + countChar c "\x7d" := by
  have hd : ("\n" : String).data = ['\n'] := rfl
  have hnl : countChar c "\n" = 0 := countChar_eq_zero c "\n" (by simp [hd, hne])
  have nlit : ∀ t : String,
      (∀ x ∈ t.data, x ∈ ("package ;import /** */    " : String).data) → c ∉ t.data :=
    fun t hsub hm => hlit (hsub c hm)
  have n1 : c ∉ ("package " : String).data := nlit _ (by decide)
  have n2 : c ∉ (";" : String).data := nlit _ (by decide)
  have n3 : c ∉ ("import " : String).data := nlit _ (by decide)
  have n4 : c ∉ ("/**" : String).data := nlit _ (by decide)
  have n5 : c ∉ (" * " : String).data := nlit _ (by decide)
  have n6 : c ∉ (" */" : String).data := nlit _ (by decide)
  have n7 : c ∉ ("    " : String).data := nlit _ (by decide)
  have z0 : countChar c "" = 0 := rfl
  have zA : countChar c ("package " ++ pkg ++ ";") = 0 := by
    rw [countChar_append, countChar_append, countChar_eq_zero c _ n1,
      countChar_eq_zero c _ hp, countChar_eq_zero c _ n2]
  have zM : ((imports.map importLine).map (countChar c)).sum = 0 := by
    apply List.sum_eq_zero
    intro v hv
    rcases List.mem_map.mp hv with ⟨ln, hln, rfl⟩
    rcases List.mem_map.mp hln with ⟨imp, himp, rfl⟩
    unfold importLine
    rw [countChar_append, countChar_append, countChar_eq_zero c _ n3,
      countChar_eq_zero c _ (hi imp himp), countChar_eq_zero c _ n2]
    rfl
  have zB : (((if imports.isEmpty then [] else [""]) : List String).map (countChar c)).sum
      = 0 := by
    split <;> simp [z0]
  have zJ : ((javadocBlock javadoc).map (countChar c)).sum = 0 := by
    cases javadoc with
    | none => simp [javadocBlock]
    | some jd =>
      by_cases hjd : jd = ""
      · simp [javadocBlock, hjd]
      · simp only [javadocBlock, if_neg hjd]
        apply List.sum_eq_zero
        intro v hv
        rcases List.mem_map.mp hv with ⟨ln, hln, rfl⟩
        simp only [List.mem_append, List.mem_singleton, List.mem_map] at hln
        rcases hln with (hln | ⟨l0, hl0, rfl⟩) | hln
        · subst hln
          exact countChar_eq_zero c _ n4
        · rw [countChar_append, countChar_eq_zero c _ n5,
            countChar_eq_zero c _ (pySplitlines_not_mem c jd (hj jd rfl) l0 hl0)]
          rfl
        · subst hln
          exact countChar_eq_zero c _ n6
  have zAN : (annots.map (countChar c)).sum = 0 := by
    apply List.sum_eq_zero
    intro v hv
    rcases List.mem_map.mp hv with ⟨a, haa, rfl⟩
    exact countChar_eq_zero c _ (ha a haa)
  have zBD : ((bodyLines body).map (countChar c)).sum = 0 := by
    unfold bodyLines
    split
    · simp
    · apply List.sum_eq_zero
      intro v hv
      rcases List.mem_map.mp hv with ⟨ln, hln, rfl⟩
      rcases List.mem_map.mp hln with ⟨l0, hl0, rfl⟩
      rw [countChar_append, countChar_eq_zero c _ n7,
        countChar_eq_zero c _ (pySplitlines_not_mem c body hb l0 hl0)]
      rfl
  unfold javaClassContent
  rw [countChar_append, hnl, countChar_joinWith_nl c hne]
  unfold javaClassLines
  simp only [List.map_append, List.sum_append, List.map_cons, List.map_nil,
    List.sum_cons, List.sum_nil]
  rw [zA, z0, zM, zB, zJ, zAN, zBD]
  omega

/-! Claim C4: well-formedness of the Java class emitter's output. -/

/-- C4 counterexample: with the caller-supplied body `"\x7b"` (a single
opening brace, a valid input under the claim's "any body string"), the
emitted text has two opening braces but only one closing brace, so its
braces are not balanced. -/
theorem java_codegen_unbalanced_braces :
    countChar obrace (javaClassContent "com.example" "A" "\x7b" [] [] none) = 2 ∧
    countChar cbrace (javaClassContent "com.example" "A" "\x7b" [] [] none) = 1 := by
  constructor <;> rfl

/-- C4 amended: provided the caller-supplied text pieces (package name,
class name, body, imports, annotation lines, javadoc) contain no brace
characters, the emitted text is brace-balanced with exactly one opening and
one closing brace; unconditionally, the package declaration is the first
emitted line, every requested import contributes its own `import ...;` line,
and the target path equals
`<base>/src/<kind>/java/<packagePath>/<Name>.java` for kind ∈ {main, test}.
The brace-free assumptions guard only the brace-balance conjunct; the
remaining conjuncts hold for every input. -/
theorem java_codegen_wellformed
    (base_package class_name body : String) (imports annots : List String)
    (javadoc : Option String) (base_dir src_type : String)
    (hk : src_type = "main" ∨ src_type = "test") :
    (braceFree base_package → braceFree class_name → braceFree body →
      (∀ i ∈ imports, braceFree i) → (∀ a ∈ annots, braceFree a) →
      (∀ j, javadoc = some j → braceFree j) →
      countChar obrace (javaClassContent base_package class_name body imports annots javadoc)
        = 1 ∧
      countChar cbrace (javaClassContent base_package class_name body imports annots javadoc)
        = 1) ∧
    (javaClassLines base_package class_name body imports annots javadoc).head? =
      some ("package " ++ base_package ++ ";") ∧
    (∀ imp ∈ imports,
      importLine imp ∈ javaClassLines base_package class_name body imports annots javadoc) ∧
    javaTargetPath base_dir base_package class_name src_type =
      pathJoin (pathJoin (pathJoin base_dir ("src/" ++ src_type ++ "/java"))
        (normalizePackageToPath base_package)) (class_name ++ ".java") := by
  refine ⟨fun hp hc hb hi ha hj => ⟨?_, ?_⟩, rfl, ?_, ?_⟩
  · rw [countChar_javaClassContent obrace (by decide) base_package class_name body
      imports annots javadoc hp.1 hb.1 (fun i hi0 => (hi i hi0).1)
      (fun a ha0 => (ha a ha0).1) (fun j hj0 => (hj j hj0).1) (by decide)]
    rw [countChar_append, countChar_append, countChar_eq_zero obrace class_name hc.1]
    rfl
  · rw [countChar_javaClassContent cbrace (by decide) base_package class_name body
      imports annots javadoc hp.2 hb.2 (fun i hi0 => (hi i hi0).2)
      (fun a ha0 => (ha a ha0).2) (fun j hj0 => (hj j hj0).2) (by decide)]
    rw [countChar_append, countChar_append, countChar_eq_zero cbrace class_name hc.2]
    rfl
  · intro imp himp
    unfold javaClassLines
    have hmem : importLine imp ∈ imports.map importLine := List.mem_map_of_mem _ himp
    exact List.mem_append_left _ (List.mem_append_left _ (List.mem_append_left _
      (List.mem_append_left _ (List.mem_append_left _ (List.mem_append_left _
        (List.mem_append_right _ hmem))))))
  · rcases hk with h | h <;> subst h <;> rfl

/-- Witness for C4's amended statement at concrete brace-free inputs with a
javadoc, an import and an annotation line, discharging the kind hypothesis
and the brace-free assumptions of the balance conjunct. -/
theorem java_codegen_wellformed_witness :
    countChar obrace (javaClassContent "com.example" "Sample" "int x = 1;"
      ["java.util.List"] ["@Deprecated"] (some "Doc line")) = 1 ∧
    countChar cbrace (javaClassContent "com.example" "Sample" "int x = 1;"
      ["java.util.List"] ["@Deprecated"] (some "Doc line")) = 1 ∧
    (javaClassLines "com.example" "Sample" "int x = 1;"
      ["java.util.List"] ["@Deprecated"] (some "Doc line")).head? =
      some ("package " ++ "com.example" ++ ";") ∧
    (∀ imp ∈ ["java.util.List"],
      importLine imp ∈ javaClassLines "com.example" "Sample" "int x = 1;"
        ["java.util.List"] ["@Deprecated"] (some "Doc line")) ∧
    javaTargetPath "." "com.example" "Sample" "test" =
      pathJoin (pathJoin (pathJoin "." ("src/" ++ "test" ++ "/java"))
        (normalizePackageToPath "com.example")) ("Sample" ++ ".java") := by
  have h := java_codegen_wellformed "com.example" "Sample" "int x = 1;"
    ["java.util.List"] ["@Deprecated"] (some "Doc line") "." "test" (Or.inr rfl)
  have hbal := h.1 (by decide) (by decide) (by decide) (by decide) (by decide)
    (fun j hj => by cases Option.some.inj hj; decide)
  exact ⟨hbal.1, hbal.2, h.2.1, h.2.2.1, h.2.2.2⟩

/-! Claim C3: idempotence of the repository scaffolder. -/

theorem pathExistsB_scaffoldStep_mono (base : String) (fs : FS) (p q : String)
    (h : pathExistsB fs q = true) : pathExistsB (scaffoldStep base fs p).2 q = true := by
  simp only [scaffoldStep]
  split
  · exact pathExistsB_mkdirP_mono _ _ _ h
  · split
    · exact pathExistsB_mkdirP_mono _ _ _ h
    · exact pathExistsB_setFile_mono _ _ _ _ (pathExistsB_mkdirP_mono _ _ _ h)

theorem scaffoldStep_target_exists (base : String) (fs : FS) (p : String) :
    pathExistsB (scaffoldStep base fs p).2 (pathJoin base p) = true := by
  simp only [scaffoldStep]
  split
  · unfold pathExistsB
    rw [mkdirP_contains_self]
    exact Bool.or_true _
  · split
    case isTrue h => exact h
    case isFalse h =>
      unfold pathExistsB
      simp [alookup_setFile]

theorem pathExistsB_scaffoldFold_mono (base : String) (ps : List String) (fs : FS) (q : String)
    (h : pathExistsB fs q = true) : pathExistsB (scaffoldFold base fs ps).2 q = true := by
  induction ps generalizing fs with
  | nil => exact h
  | cons p rest ih =>
    simp only [scaffoldFold]
    exact ih (scaffoldStep base fs p).2 (pathExistsB_scaffoldStep_mono base fs p q h)

theorem scaffoldFold_targets_exist (base : String) (ps : List String) (fs : FS) :
    ∀ p ∈ ps, pathExistsB (scaffoldFold base fs ps).2 (pathJoin base p) = true := by
  induction ps generalizing fs with
  | nil => intro p hp; cases hp
  | cons x rest ih =>
    intro p hp
    simp only [scaffoldFold]
    rcases List.mem_cons.mp hp with h | h
    · subst h
      exact pathExistsB_scaffoldFold_mono base rest _ _ (scaffoldStep_target_exists base fs p)
    · exact ih _ p h

theorem scaffoldStep_of_exists (base : String) (fs : FS) (p : String)
    (h : pathExistsB fs (pathJoin base p) = true) :
    (scaffoldStep base fs p).1 =
      (if endsWithSlash p then "[DIR] " ++ pathJoin base p
       else "[SKIP] " ++ pathJoin base p ++ " exists") ∧
    (scaffoldStep base fs p).2.files = fs.files := by
  simp only [scaffoldStep]
  by_cases hd : endsWithSlash p = true
  · rw [if_pos hd, if_pos hd]
    exact ⟨rfl, rfl⟩
  · rw [if_neg hd, if_neg hd]
    have hex : pathExistsB (ensureParentDirs fs (pathJoin base p)) (pathJoin base p) = true :=
      pathExistsB_mkdirP_mono _ _ _ h
    rw [if_pos hex]
    exact ⟨rfl, rfl⟩

theorem scaffoldFold_second (base : String) (ps : List String) (fs : FS)
    (h : ∀ p ∈ ps, pathExistsB fs (pathJoin base p) = true) :
    (scaffoldFold base fs ps).1 = ps.map (fun p =>
      if endsWithSlash p then "[DIR] " ++ pathJoin base p
      else "[SKIP] " ++ pathJoin base p ++ " exists") ∧
    (scaffoldFold base fs ps).2.files = fs.files := by
  induction ps generalizing fs with
  | nil => exact ⟨rfl, rfl⟩
  | cons x rest ih =>
    have hx := h x (List.mem_cons_self x rest)
    obtain ⟨hline, hfiles⟩ := scaffoldStep_of_exists base fs x hx
    have hrest : ∀ p ∈ rest, pathExistsB (scaffoldStep base fs x).2 (pathJoin base p) = true :=
      fun p hp => pathExistsB_scaffoldStep_mono base fs x _ (h p (List.mem_cons_of_mem _ hp))
    obtain ⟨ih1, ih2⟩ := ih (scaffoldStep base fs x).2 hrest
    constructor
    · simp only [scaffoldFold, List.map_cons]
      rw [hline, ih1]
    · simp only [scaffoldFold]
      rw [ih2, hfiles]

/-- C3 counterexample: scaffold an empty filesystem with the defaults, then
scaffold again with identical inputs.  The path `docs/` is in the combined
list, but its status line on the second run is `[DIR] docs` — a directory is
re-created (`mkdir` with `exist_ok`), not reported as skipped — so not every
path is reported as skipped. -/
theorem repo_scaffolder_second_run_counterexample :
    "docs/" ∈ repoScaffolderPaths true [] ∧
    (repoScaffolderLines (repoScaffolderRun FS.empty "." true []).2 "." true []).1.get? 4 =
      some "[DIR] docs" ∧
    "[DIR] docs" ≠ "[SKIP] " ++ pathJoin "." "docs/" ++ " exists" := by
  exact ⟨by decide, rfl, by decide⟩

/-- C3 amended: running the scaffolder a second time with identical inputs
changes no file content, and its status output reports every non-directory
path of the combined list as `[SKIP]`; directory paths (trailing separator)
are re-reported as `[DIR]`, not as skipped. -/
theorem repo_scaffolder_second_run (fs : FS) (base_dir : String) (include_defaults : Bool)
    (extra_paths : List String) :
    (repoScaffolderLines (repoScaffolderRun fs base_dir include_defaults extra_paths).2
        base_dir include_defaults extra_paths).1 =
      (repoScaffolderPaths include_defaults extra_paths).map (fun p =>
        if endsWithSlash p then "[DIR] " ++ pathJoin base_dir p
        else "[SKIP] " ++ pathJoin base_dir p ++ " exists") ∧
    (repoScaffolderLines (repoScaffolderRun fs base_dir include_defaults extra_paths).2
        base_dir include_defaults extra_paths).2.files =
      (repoScaffolderRun fs base_dir include_defaults extra_paths).2.files := by
  have hall : ∀ p ∈ repoScaffolderPaths include_defaults extra_paths,
      pathExistsB (repoScaffolderRun fs base_dir include_defaults extra_paths).2
        (pathJoin base_dir p) = true := by
    intro p hp
    exact scaffoldFold_targets_exist base_dir
      (repoScaffolderPaths include_defaults extra_paths) (mkdirP fs base_dir) p hp
  have hall2 : ∀ p ∈ repoScaffolderPaths include_defaults extra_paths,
      pathExistsB (mkdirP (repoScaffolderRun fs base_dir include_defaults extra_paths).2
        base_dir) (pathJoin base_dir p) = true :=
    fun p hp => pathExistsB_mkdirP_mono _ _ _ (hall p hp)
  obtain ⟨h1, h2⟩ := scaffoldFold_second base_dir
    (repoScaffolderPaths include_defaults extra_paths)
    (mkdirP (repoScaffolderRun fs base_dir include_defaults extra_paths).2 base_dir) hall2
  exact ⟨h1, h2⟩
